import Mathlib

/-!
Verification of the RayLibOdeVehicle main loop (src/main.c): the
fixed-step physics driver, the near-phase collision callback, the
vehicle actuation smoothing, the flip-recovery monitor, and the debris
impulse pass.  Machine floats are modelled by exact rationals (reals
for the roll-angle computation, which uses atan2).
-/

/-- Fixed physics timestep: `const float physSlice = 1.0 / 240.0` (main.c:295). -/
def physSlice : ℚ := 1 / 240

/-- Per-frame physics step cap: `const int maxPsteps = 6` (main.c:296). -/
def maxPsteps : Nat := 6

/-- The stepping loop of main.c:399-415:
`while (frameTime > physSlice) { step; frameTime -= physSlice; pSteps++;
 if (pSteps > maxPsteps) { frameTime = 0; break; } }`.
Returns (frameTime, pSteps, capHit).  The `fuel` argument only bounds the
recursion; `maxPsteps + 2` units are enough because the cap stops the loop. -/
def stepLoop : Nat → ℚ → Nat → ℚ × Nat × Bool
  | 0, frameTime, pSteps => (frameTime, pSteps, false)
  | fuel + 1, frameTime, pSteps =>
    if frameTime > physSlice then
      let ft := frameTime - physSlice
      let p := pSteps + 1
      if p > maxPsteps then (0, p, true)
      else stepLoop fuel ft p
    else (frameTime, pSteps, false)

/-- One frame of the Fixed-Step Driver: `frameTime += GetFrameTime()`
(main.c:395) followed by the stepping loop with `pSteps = 0`. -/
def driverFrame (acc dt : ℚ) : ℚ × Nat × Bool :=
  stepLoop (maxPsteps + 2) (acc + dt) 0

/-- The driver run over a whole sequence of frame durations, starting from
`frameTime = 0` (main.c:293); the accumulator is carried across frames,
the step counter and cap flag are those of the last frame. -/
def runFrames (ds : List ℚ) : ℚ × Nat × Bool :=
  ds.foldl (fun st d => driverFrame st.1 d) (0, 0, false)

/-- Flip counter update of main.c:318-322: `carFlipped++` on a tick whose
roll is out of bound, otherwise `carFlipped = 0`. -/
def flipCountStep (flipped : Bool) (c : Nat) : Nat :=
  if flipped then c + 1 else 0

/-- The flip-recovery monitor run over a sequence of per-tick flipped flags
(`|roll| > π/2 − 0.001`): each tick updates `carFlipped`, then
`if (carFlipped > 100) unflipVehicle(car)` (main.c:325-327).  Returns the
final `carFlipped` counter and the number of `unflipVehicle` calls. -/
def runFlips (ins : List Bool) : Nat × Nat :=
  ins.foldl
    (fun st b =>
      let c := flipCountStep b st.1
      (c, if c > 100 then st.2 + 1 else st.2))
    (0, 0)

/-- `int numObj = 300` (main.c:57). -/
def numObj : Nat := 300

/-- The per-body state the debris impulse pass reads (main.c:363-375). -/
structure Debris where
  vy : ℚ
  y : ℚ
  mass : ℚ
deriving DecidableEq

/-- The gate the CODE applies before adding the impulse force to body `i`
(main.c:367-368): `const dReal* v = dBodyGetLinearVel(obj[0]);
if (v[1] < 10 && pos[1] < 10)` — the vertical velocity is read from
`obj[0]`, the height `pos[1]` from `obj[i]`. -/
def impulseEligibleCode (objs : List Debris) (i : Nat) : Bool :=
  match objs[0]?, objs[i]? with
  | some b0, some bi => decide (b0.vy < 10) && decide (bi.y < 10)
  | _, _ => false

/-- The claim's gate: body `i`'s OWN vertical velocity and own height are
both below the caps (10 each). -/
def impulseEligibleSpec (objs : List Debris) (i : Nat) : Bool :=
  match objs[i]? with
  | some bi => decide (bi.vy < 10) && decide (bi.y < 10)
  | none => false

/-- Impulse force magnitude for body `i` (main.c:373):
`float f = (6+(((float)i/numObj)*4)) * mass.mass`. -/
def debrisForceMag (i : Nat) (m : ℚ) : ℚ :=
  (6 + ((i : ℚ) / (numObj : ℚ)) * 4) * m

/-- Accel update of main.c:331-335: `accel *= .99;` then `+2.5` while KEY_UP
is down, `-2.5` while KEY_DOWN is down, then clamped to `[-25, 75]`. -/
def accelStep (up down : Bool) (a : ℚ) : ℚ :=
  let a1 := a * (99 / 100)
  let a2 := if up then a1 + 5 / 2 else a1
  let a3 := if down then a2 - 5 / 2 else a2
  let a4 := if a3 > 75 then 75 else a3
  if a4 < -25 then -25 else a4

/-- The accel value after `n` frames of holding KEY_UP, starting from
`accel = 0` (main.c:287). -/
def accelHold : Nat → ℚ
  | 0 => 0
  | n + 1 => accelStep true false (accelHold n)

/-- Steer update of main.c:338-342: `-0.1` while KEY_RIGHT is down, `+0.1`
while KEY_LEFT is down, halved when neither is down, clamped to
`[-0.5, 0.5]`. -/
def steerStep (right left : Bool) (s : ℚ) : ℚ :=
  let s1 := if right then s - 1 / 10 else s
  let s2 := if left then s1 + 1 / 10 else s1
  let s3 := if !right && !left then s2 * (1 / 2) else s2
  let s4 := if s3 > 1 / 2 then 1 / 2 else s3
  if s4 < -(1 / 2) then -(1 / 2) else s4

/-- `#define MAX_CONTACTS 8` (main.c:73). -/
def MAX_CONTACTS : Nat := 8

/-- A contact point as produced by `dCollide` (position and depth). -/
structure Contact where
  px : ℚ
  py : ℚ
  pz : ℚ
  depth : ℚ
deriving DecidableEq

/-- The fixed surface parameters of a contact (main.c:95-102). -/
structure Surface where
  mu : ℚ
  slip1 : ℚ
  slip2 : ℚ
  soft_erp : ℚ
  soft_cfm : ℚ
  bounce : ℚ
  bounce_vel : ℚ
deriving DecidableEq

/-- The surface parameters assigned to every contact slot (main.c:95-102):
mu = 1000, slip1 = 0.0001, slip2 = 0.001, soft_erp = 0.05,
soft_cfm = 0.0003, bounce = 0.1, bounce_vel = 0.1. -/
def surfParams : Surface :=
  ⟨1000, 1 / 10000, 1 / 1000, 1 / 20, 3 / 10000, 1 / 10, 1 / 10⟩

/-- A contact joint created by `dJointCreateContact` + `dJointAttach`
(main.c:111-113): surface parameters, the contact point, and the two
attached bodies (`none` models a null `dBodyID`). -/
structure ContactJoint where
  surface : Surface
  point : Contact
  body1 : Option Nat
  body2 : Option Nat
deriving DecidableEq

/-- One candidate geometry pair as seen by `nearCallback`: the owning
bodies `dGeomGetBody(o1)` / `dGeomGetBody(o2)` (`none` = geometry with no
body, e.g. the ground trimesh), whether
`dAreConnectedExcluding(b1, b2, dJointTypeContact)` holds, the two
`checkColliding` flags, and the list of contact points `dCollide` would
generate for the pair, in order. -/
structure GeomPair where
  b1 : Option Nat
  b2 : Option Nat
  connected : Bool
  coll1 : Bool
  coll2 : Bool
  contacts : List Contact
deriving DecidableEq

/-- The near-phase callback (main.c:75-117): return without creating
anything when both bodies exist and are connected by a non-contact joint,
or when either geometry fails `checkColliding`; otherwise create one
contact joint per contact point returned by
`dCollide(o1, o2, MAX_CONTACTS, ...)` (at most `MAX_CONTACTS`, the first
ones computed), each with the fixed surface parameters and attached
between `b1` and `b2`.  The result is the list of joints added to the
scratch contact group. -/
def nearCallback (p : GeomPair) : List ContactJoint :=
  if p.b1.isSome && p.b2.isSome && p.connected then []
  else if !p.coll1 then []
  else if !p.coll2 then []
  else (p.contacts.take MAX_CONTACTS).map fun c => ⟨surfParams, c, p.b1, p.b2⟩

/-- C's `atan2(y, x)` on the reals; a zero `y` behaves as +0, which matches
the sign-free float zeros produced at the two call sites proved about. -/
noncomputable def atan2 (y x : ℝ) : ℝ :=
  if 0 < x then Real.arctan (y / x)
  else if x < 0 then
    (if 0 ≤ y then Real.arctan (y / x) + Real.pi
     else Real.arctan (y / x) - Real.pi)
  else if 0 < y then Real.pi / 2
  else if y < 0 then -(Real.pi / 2)
  else 0

/-- An ODE quaternion `(q0, q1, q2, q3) = (w, x, y, z)` as returned by
`dBodyGetQuaternion`. -/
structure QuatOde where
  q0 : ℝ
  q1 : ℝ
  q2 : ℝ
  q3 : ℝ

/-- Roll extraction of main.c:314-317:
`z0 = 2(q0 q3 + q1 q2)`, `z1 = 1 − 2(q1² + q3²)`, `roll = atan2(z0, z1)`. -/
noncomputable def rollOf (q : QuatOde) : ℝ :=
  atan2 (2 * (q.q0 * q.q3 + q.q1 * q.q2))
    (1 - 2 * (q.q1 * q.q1 + q.q3 * q.q3))

/-! ## Helper lemmas about the stepping loop -/

/-- Whenever the loop reports the cap was hit, it has set the accumulator
to exactly 0. -/
theorem stepLoop_capHit_zero (fuel : Nat) :
    ∀ (ft : ℚ) (p : Nat), (stepLoop fuel ft p).2.2 = true → (stepLoop fuel ft p).1 = 0 := by
  induction fuel with
  | zero => intro ft p h; simp [stepLoop] at h
  | succ n ih =>
    intro ft p
    by_cases hgt : ft > physSlice
    · by_cases hcap : p + 1 > maxPsteps
      · simp [stepLoop, hgt, hcap]
      · simp only [stepLoop, if_pos hgt, if_neg hcap]
        exact ih _ _
    · simp [stepLoop, hgt]

/-- The loop never runs more than `maxPsteps + 1` steps when entered with a
step counter at most `maxPsteps`. -/
theorem stepLoop_steps_le (fuel : Nat) :
    ∀ (ft : ℚ) (p : Nat), p ≤ maxPsteps → (stepLoop fuel ft p).2.1 ≤ maxPsteps + 1 := by
  induction fuel with
  | zero => intro ft p hp; simp [stepLoop]; omega
  | succ n ih =>
    intro ft p hp
    by_cases hgt : ft > physSlice
    · by_cases hcap : p + 1 > maxPsteps
      · simp [stepLoop, hgt, hcap]; omega
      · simp only [stepLoop, if_pos hgt, if_neg hcap]
        exact ih _ _ (by omega)
    · simp [stepLoop, hgt]; omega

/-- With enough fuel, the loop leaves the accumulator in `[0, physSlice]`. -/
theorem stepLoop_bounds (fuel : Nat) :
    ∀ (ft : ℚ) (p : Nat), 0 ≤ ft → p ≤ maxPsteps → maxPsteps + 2 ≤ p + fuel →
      0 ≤ (stepLoop fuel ft p).1 ∧ (stepLoop fuel ft p).1 ≤ physSlice := by
  induction fuel with
  | zero => intro ft p _ hp hf; exfalso; omega
  | succ n ih =>
    intro ft p hft hp hf
    by_cases hgt : ft > physSlice
    · by_cases hcap : p + 1 > maxPsteps
      · simp only [stepLoop, if_pos hgt, if_pos hcap]
        norm_num [physSlice]
      · have hps : (0 : ℚ) < physSlice := by norm_num [physSlice]
        simp only [stepLoop, if_pos hgt, if_neg hcap]
        exact ih (ft - physSlice) (p + 1) (by linarith) (by omega) (by omega)
    · simp only [stepLoop, if_neg hgt]
      exact ⟨hft, le_of_not_lt hgt⟩

/-- One driver frame keeps the accumulator in `[0, physSlice]` and zeroes
it when the cap is hit. -/
theorem driverFrame_inv (acc dt : ℚ) (hacc : 0 ≤ acc) (hdt : 0 ≤ dt) :
    0 ≤ (driverFrame acc dt).1 ∧ (driverFrame acc dt).1 ≤ physSlice ∧
      ((driverFrame acc dt).2.2 = true → (driverFrame acc dt).1 = 0) := by
  have hb := stepLoop_bounds (maxPsteps + 2) (acc + dt) 0 (by linarith)
    (Nat.zero_le _) (by omega)
  exact ⟨hb.1, hb.2, stepLoop_capHit_zero _ _ _⟩

/-! ## C1: leftover accumulator after a frame -/

/-- Claim C1 as stated is false: after a frame of duration exactly
`physSlice`, the leftover accumulator equals `physSlice`, which is not in
the half-open interval `[0, physSlice)`, and the cap was not hit. -/
theorem C1_counterexample :
    ¬((0 ≤ (runFrames [physSlice]).1 ∧ (runFrames [physSlice]).1 < physSlice) ∨
      ((runFrames [physSlice]).2.2 = true ∧ (runFrames [physSlice]).1 = 0)) := by
  norm_num [runFrames, driverFrame, stepLoop, physSlice, maxPsteps]

/-- Claim C1 (amended): for every sequence of nonnegative frame durations,
the leftover accumulator after the last frame's stepping loop lies in the
CLOSED interval `[0, physSlice]`, and is exactly 0 when the per-frame step
cap was hit. -/
theorem C1_leftover_closed_interval (ds : List ℚ) (hds : ∀ d ∈ ds, 0 ≤ d) :
    0 ≤ (runFrames ds).1 ∧ (runFrames ds).1 ≤ physSlice ∧
      ((runFrames ds).2.2 = true → (runFrames ds).1 = 0) := by
  suffices h : ∀ (st : ℚ × Nat × Bool), 0 ≤ st.1 → st.1 ≤ physSlice →
      (st.2.2 = true → st.1 = 0) →
      0 ≤ (ds.foldl (fun st d => driverFrame st.1 d) st).1 ∧
        (ds.foldl (fun st d => driverFrame st.1 d) st).1 ≤ physSlice ∧
        ((ds.foldl (fun st d => driverFrame st.1 d) st).2.2 = true →
          (ds.foldl (fun st d => driverFrame st.1 d) st).1 = 0) by
    exact h (0, 0, false) le_rfl (by norm_num [physSlice]) (by simp)
  induction ds with
  | nil => intro st h0 h1 h2; exact ⟨h0, h1, h2⟩
  | cons d ds ih =>
    intro st h0 h1 h2
    have hd : 0 ≤ d := hds d (List.mem_cons_self d ds)
    have hfr := driverFrame_inv st.1 d h0 hd
    have hds' : ∀ x ∈ ds, 0 ≤ x := fun x hx => hds x (List.mem_cons_of_mem d hx)
    simp only [List.foldl_cons]
    exact ih hds' _ hfr.1 hfr.2.1 hfr.2.2

/-- Witness for C1: the amended bound applied to the concrete duration
sequence `[1/120]`. -/
theorem C1_witness :
    0 ≤ (runFrames [1 / 120]).1 ∧ (runFrames [1 / 120]).1 ≤ physSlice ∧
      ((runFrames [1 / 120]).2.2 = true → (runFrames [1 / 120]).1 = 0) :=
  C1_leftover_closed_interval [1 / 120] (by norm_num)

/-! ## C2: per-frame step cap -/

/-- Claim C2 as stated is false: a frame of duration `8 · physSlice` makes
the driver perform 7 physics ticks, one more than the cap `maxPsteps = 6`. -/
theorem C2_counterexample :
    (driverFrame 0 (8 * physSlice)).2.1 = 7 ∧
      ¬((driverFrame 0 (8 * physSlice)).2.1 ≤ maxPsteps) := by
  norm_num [driverFrame, stepLoop, physSlice, maxPsteps]

/-- Claim C2 (amended): in every frame the driver performs at most
`maxPsteps + 1 = 7` physics ticks (the counter is incremented after a tick
and only then compared with the cap), and whenever the cap comparison
triggers it discards the remaining accumulator (sets it to 0) and stops
stepping for that frame. -/
theorem C2_step_cap (acc dt : ℚ) :
    (driverFrame acc dt).2.1 ≤ maxPsteps + 1 ∧
      ((driverFrame acc dt).2.2 = true → (driverFrame acc dt).1 = 0) :=
  ⟨stepLoop_steps_le _ _ _ (Nat.zero_le _), stepLoop_capHit_zero _ _ _⟩

/-! ## C3: flip-recovery state machine -/

set_option maxRecDepth 8000 in
/-- Claim C3 as stated is false in its final clause: after feeding 101
consecutive out-of-bound ticks, the recovery has been triggered exactly
once, but the counter (`carFlipped`) is 101, not 0 — the code never
resets the counter when it calls `unflipVehicle`. -/
theorem C3_counterexample :
    (runFlips (List.replicate 101 true)).2 = 1 ∧
      (runFlips (List.replicate 101 true)).1 ≠ 0 := by
  decide

set_option maxRecDepth 8000 in
/-- Claim C3 (amended): feeding `|roll| > π/2 − ε` for exactly 101
consecutive ticks triggers exactly one recovery (`unflipVehicle`), on the
101st tick (no trigger in the first 100), after which the counter is 101
(not 0; it resets only on a later in-bound tick, which in the running
system the recovery itself produces by righting the chassis); feeding 100
out-of-bound ticks followed by one in-bound tick never triggers recovery
and leaves the counter at 0. -/
theorem C3_flip_machine :
    runFlips (List.replicate 101 true) = (101, 1) ∧
      (runFlips (List.replicate 100 true)).2 = 0 ∧
      runFlips (List.replicate 100 true ++ [false]) = (0, 0) := by
  decide

/-! ## C4: debris impulse gate -/

/-- Claim C4 is right about the intent and the code is wrong: the code
reads the vertical velocity of `obj[0]` (`dBodyGetLinearVel(obj[0])`,
main.c:367) instead of `obj[i]` when gating the impulse force for body
`i`.  Concretely, with body 0 at rest and body 1 having vertical velocity
20 (above the cap 10), both at height 5, the code still applies the force
to body 1 while the claimed own-velocity gate would not. -/
theorem C4_velocity_gate_bug :
    impulseEligibleCode [⟨0, 5, 1⟩, ⟨20, 5, 1⟩] 1 = true ∧
      impulseEligibleSpec [⟨0, 5, 1⟩, ⟨20, 5, 1⟩] 1 = false := by
  constructor <;> norm_num [impulseEligibleCode, impulseEligibleSpec]

/-! ## C5: accel actuation policy -/

/-- Holding KEY_UP keeps the accel value in `[0, 75]`. -/
theorem accelStep_up_bounds (a : ℚ) (h0 : 0 ≤ a) (h75 : a ≤ 75) :
    0 ≤ accelStep true false a ∧ accelStep true false a ≤ 75 := by
  simp only [accelStep, if_true]
  split_ifs <;> constructor <;> linarith

/-- With no input, one frame multiplies accel by the damping factor
`0.99` (the clamps are inactive on the reachable range `[-25, 75]`). -/
theorem accelStep_decay (a : ℚ) (hlo : -25 ≤ a) (hhi : a ≤ 75) :
    accelStep false false a = a * (99 / 100) := by
  simp [accelStep]
  split_ifs <;> linarith

set_option maxRecDepth 8000 in
/-- The accel value reaches the clamp bound 75 by frame 40 of holding
KEY_UP from rest. -/
theorem accelHold_40 : accelHold 40 = 75 := by
  norm_num [accelHold, accelStep]

/-- 75 is a fixed point of the held-accelerate update. -/
theorem accelStep_fix75 : accelStep true false 75 = 75 := by
  norm_num [accelStep]

/-- Bounds for every frame of holding KEY_UP from rest. -/
theorem accelHold_bounds (n : Nat) : 0 ≤ accelHold n ∧ accelHold n ≤ 75 := by
  induction n with
  | zero => norm_num [accelHold]
  | succ m ih => exact accelStep_up_bounds (accelHold m) ih.1 ih.2

/-- Claim C5: starting from 0, holding accelerate converges to the max
accel value 75 (reached by frame 40 and kept forever) and never exceeds
it; with no input, accel is multiplied by the 0.99 damping factor each
frame, so it decays toward 0 without ever crossing 0 in sign. -/
theorem C5_accel_policy :
    (∀ n : Nat, 0 ≤ accelHold n ∧ accelHold n ≤ 75) ∧
      (∀ n : Nat, 40 ≤ n → accelHold n = 75) ∧
      (∀ a : ℚ, -25 ≤ a → a ≤ 75 →
        accelStep false false a = a * (99 / 100) ∧
        (0 ≤ a → 0 ≤ accelStep false false a ∧ accelStep false false a ≤ a) ∧
        (a ≤ 0 → a ≤ accelStep false false a ∧ accelStep false false a ≤ 0)) := by
  refine ⟨accelHold_bounds, ?_, ?_⟩
  · intro n hn
    induction n with
    | zero => omega
    | succ m ih =>
      rcases Nat.lt_or_ge m 40 with hm | hm
      · have h40 : m + 1 = 40 := by omega
        rw [h40]; exact accelHold_40
      · have hm75 := ih hm
        show accelStep true false (accelHold m) = 75
        rw [hm75, accelStep_fix75]
  · intro a hlo hhi
    have hd := accelStep_decay a hlo hhi
    refine ⟨hd, fun h0 => ⟨by rw [hd]; positivity, by rw [hd]; linarith⟩,
      fun h0 => ⟨by rw [hd]; linarith, by rw [hd]; nlinarith⟩⟩

/-- Witness for C5 at concrete inputs: the bounds at frame 3, the
converged value at frame 50, and one concrete damping step. -/
theorem C5_witness :
    (0 ≤ accelHold 3 ∧ accelHold 3 ≤ 75) ∧ accelHold 50 = 75 ∧
      accelStep false false 10 = 10 * (99 / 100) :=
  ⟨C5_accel_policy.1 3, C5_accel_policy.2.1 50 (by norm_num),
    (C5_accel_policy.2.2 10 (by norm_num) (by norm_num)).1⟩

/-! ## C6: exclusion policy of the near callback -/

/-- Claim C6: for every geometry pair, if both owning bodies exist and are
already connected by a non-contact joint, or if either geometry is flagged
non-collidable by `checkColliding`, then the callback creates no contact
constraint — the scratch constraint group receives nothing from that pair. -/
theorem C6_joint_and_flag_exclusion (p : GeomPair)
    (h : (p.b1.isSome = true ∧ p.b2.isSome = true ∧ p.connected = true) ∨
      p.coll1 = false ∨ p.coll2 = false) :
    nearCallback p = [] := by
  unfold nearCallback
  rcases h with ⟨h1, h2, h3⟩ | h | h <;> split_ifs <;> simp_all

/-- Witness for C6: a connected pair of bodies 1 and 2 with one collidable
contact point yields no constraints. -/
theorem C6_witness :
    nearCallback ⟨some 1, some 2, true, true, true, [⟨0, 0, 0, 1⟩]⟩ = [] :=
  C6_joint_and_flag_exclusion _ (Or.inl ⟨rfl, rfl, rfl⟩)

/-! ## C7: contact cap and fixed surface parameters -/

/-- Claim C7: the callback never creates more than `MAX_CONTACTS = 8`
contact constraints for a pair; for a surviving pair it creates exactly one
constraint per contact point of the first 8 computed; and every created
constraint carries the fixed surface parameters mu = 1000, slip1 = 1e-4,
slip2 = 1e-3, soft ERP = 0.05, soft CFM = 3e-4, bounce = 0.1 with
bounce-velocity threshold 0.1. -/
theorem C7_contact_cap_and_surface (p : GeomPair) :
    (nearCallback p).length ≤ MAX_CONTACTS ∧
      (p.coll1 = true → p.coll2 = true →
        ¬(p.b1.isSome = true ∧ p.b2.isSome = true ∧ p.connected = true) →
        nearCallback p = (p.contacts.take MAX_CONTACTS).map
          fun c => ⟨surfParams, c, p.b1, p.b2⟩) ∧
      ∀ j ∈ nearCallback p, j.surface.mu = 1000 ∧ j.surface.slip1 = 1 / 10000 ∧
        j.surface.slip2 = 1 / 1000 ∧ j.surface.soft_erp = 1 / 20 ∧
        j.surface.soft_cfm = 3 / 10000 ∧ j.surface.bounce = 1 / 10 ∧
        j.surface.bounce_vel = 1 / 10 := by
  refine ⟨?_, ?_, ?_⟩
  · unfold nearCallback
    split_ifs <;> simp [List.length_take, MAX_CONTACTS]
  · intro h1 h2 h3
    have ha : (p.b1.isSome && p.b2.isSome && p.connected) = false := by
      cases hb : (p.b1.isSome && p.b2.isSome && p.connected) with
      | false => rfl
      | true =>
        rw [Bool.and_eq_true, Bool.and_eq_true] at hb
        exact absurd ⟨hb.1.1, hb.1.2, hb.2⟩ h3
    simp [nearCallback, ha, h1, h2]
  · intro j hj
    unfold nearCallback at hj
    split_ifs at hj
    · simp at hj
    · simp at hj
    · simp at hj
    · simp only [List.mem_map] at hj
      obtain ⟨c, hc, rfl⟩ := hj
      norm_num [surfParams]

/-- Witness for C7: a surviving pair (body against the bodiless ground,
both geometries collidable) with nine contact points gets exactly the
first eight as constraints. -/
theorem C7_witness :
    nearCallback ⟨some 1, none, false, true, true,
        [⟨0, 0, 0, 1⟩, ⟨1, 0, 0, 1⟩, ⟨2, 0, 0, 1⟩, ⟨3, 0, 0, 1⟩, ⟨4, 0, 0, 1⟩,
         ⟨5, 0, 0, 1⟩, ⟨6, 0, 0, 1⟩, ⟨7, 0, 0, 1⟩, ⟨8, 0, 0, 1⟩]⟩ =
      (([⟨0, 0, 0, 1⟩, ⟨1, 0, 0, 1⟩, ⟨2, 0, 0, 1⟩, ⟨3, 0, 0, 1⟩, ⟨4, 0, 0, 1⟩,
         ⟨5, 0, 0, 1⟩, ⟨6, 0, 0, 1⟩, ⟨7, 0, 0, 1⟩,
         ⟨8, 0, 0, 1⟩] : List Contact).take MAX_CONTACTS).map
        (fun c => ⟨surfParams, c, some 1, none⟩) :=
  (C7_contact_cap_and_surface _).2.1 rfl rfl (by simp)

/-! ## C8: roll extraction from the quaternion -/

/-- Claim C8: with the code's formula
`roll = atan2(2(q0 q3 + q1 q2), 1 − 2(q1² + q3²))`, the identity
orientation `(1,0,0,0)` yields roll 0, and the quaternion `(0,0,0,1)` —
a 180° rotation about the z axis, the axis whose rotation this formula
extracts (the vehicle's forward axis) — yields |roll| = π.  Proved
exactly over the reals. -/
theorem C8_roll_formula :
    rollOf ⟨1, 0, 0, 0⟩ = 0 ∧ |rollOf ⟨0, 0, 0, 1⟩| = Real.pi := by
  constructor
  · norm_num [rollOf, atan2, Real.arctan_zero]
  · norm_num [rollOf, atan2, Real.arctan_zero, abs_eq_self, Real.pi_nonneg]

/-! ## C9: pairs with a bodiless geometry are always eligible -/

/-- Claim C9: the connected-by-joint exclusion fires only when both
geometries have owning bodies.  When one body is null (the static ground
trimesh) and both geometries are collidable, the callback creates one
constraint per contact point (up to the cap) attached between the
existing body and the null body, whatever the `connected` flag says —
body-versus-static contacts are never excluded by the vehicle's joints. -/
theorem C9_static_geom_contacts (p : GeomPair)
    (hb : p.b1 = none ∨ p.b2 = none) (h1 : p.coll1 = true) (h2 : p.coll2 = true) :
    nearCallback p = (p.contacts.take MAX_CONTACTS).map
        (fun c => ⟨surfParams, c, p.b1, p.b2⟩) ∧
      (p.contacts ≠ [] → nearCallback p ≠ []) := by
  have ha : (p.b1.isSome && p.b2.isSome && p.connected) = false := by
    rcases hb with h | h <;> simp [h]
  constructor
  · simp [nearCallback, ha, h1, h2]
  · intro hne
    match hc : p.contacts with
    | [] => exact absurd hc hne
    | c :: cs => simp [nearCallback, ha, h1, h2, hc, MAX_CONTACTS]

/-- Witness for C9: body 3 against a bodiless geometry with the connected
flag set still produces its contact constraint. -/
theorem C9_witness :
    nearCallback ⟨some 3, none, true, true, true, [⟨0, 0, 0, 2⟩]⟩ =
        (([⟨0, 0, 0, 2⟩] : List Contact).take MAX_CONTACTS).map
          (fun c => ⟨surfParams, c, some 3, none⟩) ∧
      (([⟨0, 0, 0, 2⟩] : List Contact) ≠ [] →
        nearCallback ⟨some 3, none, true, true, true, [⟨0, 0, 0, 2⟩]⟩ ≠ []) :=
  C9_static_geom_contacts _ (Or.inr rfl) rfl rfl

/-! ## C10: steer update with both inputs held -/

/-- Claim C10: when steer-left and steer-right are both held, the two fixed
deltas (+0.1 and −0.1) cancel and the halving decay is skipped, so the
steer value is unchanged by the frame (exactly, on the reachable range
`[-0.5, 0.5]`); with neither held the value is halved; with exactly one
held the fixed delta is applied without any halving. -/
theorem C10_steer_both_held :
    (∀ s : ℚ, -(1 / 2) ≤ s → s ≤ 1 / 2 → steerStep true true s = s) ∧
      (∀ s : ℚ, -(1 / 2) ≤ s → s ≤ 1 / 2 → steerStep false false s = s * (1 / 2)) ∧
      (∀ s : ℚ, -(2 / 5) ≤ s → s ≤ 2 / 5 →
        steerStep true false s = s - 1 / 10 ∧ steerStep false true s = s + 1 / 10) := by
  refine ⟨?_, ?_, ?_⟩
  · intro s hlo hhi
    simp [steerStep]
    split_ifs <;> linarith
  · intro s hlo hhi
    simp [steerStep]
    split_ifs <;> linarith
  · intro s hlo hhi
    constructor <;> simp [steerStep] <;> split_ifs <;> linarith

/-- Witness for C10 at concrete steer values. -/
theorem C10_witness :
    steerStep true true (3 / 10) = 3 / 10 ∧
      steerStep false false (3 / 10) = (3 / 10) * (1 / 2) ∧
      steerStep true false (1 / 5) = 1 / 5 - 1 / 10 :=
  ⟨C10_steer_both_held.1 (3 / 10) (by norm_num) (by norm_num),
    C10_steer_both_held.2.1 (3 / 10) (by norm_num) (by norm_num),
    (C10_steer_both_held.2.2 (1 / 5) (by norm_num) (by norm_num)).1⟩
